import Mathlib

/-!
Verification of the positional / state-machine core of the interactive
cherry-blossom scene (particle foliage + gesture-driven mode transitions).

The definitions below are shallow embeddings of the TypeScript source:
  - the gesture debouncer and mode-transition controller
    (src/components/GestureController.tsx, `predictWebcam` / `detectGesture`);
  - the gesture classifier geometry (same file, `detectGesture`);
  - the Mulberry32-style deterministic generator (`pseudoRandom`);
  - the chaos-spread layout (`getUnleashSpreadPositions`);
  - the dual-position particle generator and per-frame progress lerp
    (src/components/Foliage.tsx).

JavaScript numbers are modelled as real numbers, except inside
`pseudoRandom`, whose 32-bit integer pipeline is modelled exactly with
natural-number arithmetic modulo 2^32.  Calls to `Math.random()` are
modelled by an explicit stream `rand : ℕ → ℝ` of draws, consumed in the
same order as the source consumes them.
-/

namespace CherryBlossom

open scoped Classical

/-- The two scene modes of `TreeMode` (modelled from the spec: `src/types`
is not part of the provided sources; the spec fixes Mode as an enum with
exactly the two values CHAOS and FORMED). -/
inductive TreeMode where
  | CHAOS
  | FORMED
  deriving DecidableEq, Repr

/-- One frame's gesture classification.  OPEN / CLOSED / AMBIGUOUS are the
three outcomes of `detectGesture`; NONE is the distinct no-hand-detected
branch of `predictWebcam`. -/
inductive Classification where
  | OPEN
  | CLOSED
  | AMBIGUOUS
  | NONE
  deriving DecidableEq, Repr

/-- The debouncer's mutable state: the refs `openFrames`, `closedFrames`
and `lastModeRef` of GestureController.tsx.  The counters are modelled as
integers (JS numbers holding integer counts) so that the source's
`Math.max(0, x - 1)` decay is transcribed literally. -/
structure DebounceState where
  openFrames : ℤ
  closedFrames : ℤ
  lastMode : TreeMode
  deriving DecidableEq, Repr

/-- `CONFIDENCE_THRESHOLD = 5` from GestureController.tsx. -/
def CONFIDENCE_THRESHOLD : ℤ := 5

/-- One per-frame update of the debouncer.  The OPEN / CLOSED / AMBIGUOUS
branches transcribe `detectGesture` (lines 207-238); the NONE branch
transcribes the no-hand path of `predictWebcam` (lines 164-165).  The
second component is the `onModeChange` event emitted this frame, if any. -/
def debounceStep (s : DebounceState) : Classification → DebounceState × Option TreeMode
  | Classification.OPEN =>
    let o := s.openFrames + 1
    if CONFIDENCE_THRESHOLD < o then
      if s.lastMode ≠ TreeMode.CHAOS then
        (⟨o, 0, TreeMode.CHAOS⟩, some TreeMode.CHAOS)
      else
        (⟨o, 0, s.lastMode⟩, none)
    else
      (⟨o, 0, s.lastMode⟩, none)
  | Classification.CLOSED =>
    let c := s.closedFrames + 1
    if CONFIDENCE_THRESHOLD < c then
      if s.lastMode ≠ TreeMode.FORMED then
        (⟨0, c, TreeMode.FORMED⟩, some TreeMode.FORMED)
      else
        (⟨0, c, s.lastMode⟩, none)
    else
      (⟨0, c, s.lastMode⟩, none)
  | Classification.AMBIGUOUS => (⟨0, 0, s.lastMode⟩, none)
  | Classification.NONE =>
    (⟨max 0 (s.openFrames - 1), max 0 (s.closedFrames - 1), s.lastMode⟩, none)

/-- Run the debouncer over a list of per-frame classifications, returning
the final state and the list of emitted mode-transition events in order. -/
def debounceRun (s : DebounceState) : List Classification → DebounceState × List TreeMode
  | [] => (s, [])
  | c :: cs =>
    ((debounceRun (debounceStep s c).1 cs).1,
     (debounceStep s c).2.toList ++ (debounceRun (debounceStep s c).1 cs).2)

/-- The external mode-override sync: the effect at GestureController.tsx
lines 249-251 that copies the externally set `currentMode` prop into
`lastModeRef`. -/
def externalSetMode (s : DebounceState) (m : TreeMode) : DebounceState :=
  ⟨s.openFrames, s.closedFrames, m⟩

lemma debounceRun_append (l1 l2 : List Classification) : ∀ s : DebounceState,
    debounceRun s (l1 ++ l2) =
      ((debounceRun (debounceRun s l1).1 l2).1,
       (debounceRun s l1).2 ++ (debounceRun (debounceRun s l1).1 l2).2) := by
  induction l1 with
  | nil => intro s; simp [debounceRun]
  | cons c cs ih => intro s; simp [debounceRun, ih]

lemma debounceStep_open_chaos (s : DebounceState) (h : s.lastMode = TreeMode.CHAOS) :
    debounceStep s Classification.OPEN = (⟨s.openFrames + 1, 0, TreeMode.CHAOS⟩, none) := by
  simp only [debounceStep, h]
  split <;> simp

lemma debounceStep_closed_formed (s : DebounceState) (h : s.lastMode = TreeMode.FORMED) :
    debounceStep s Classification.CLOSED = (⟨0, s.closedFrames + 1, TreeMode.FORMED⟩, none) := by
  simp only [debounceStep, h]
  split <;> simp

/-- While CHAOS is already the last committed mode, any run of OPEN frames
emits no events (the hysteresis check short-circuits the commit). -/
lemma run_open_chaos (k : ℕ) : ∀ s : DebounceState, s.lastMode = TreeMode.CHAOS →
    (debounceRun s (List.replicate k Classification.OPEN)).2 = [] := by
  induction k with
  | zero => intro s _; rfl
  | succ n ih =>
    intro s h
    rw [List.replicate_succ]
    simp only [debounceRun, debounceStep_open_chaos s h]
    simpa using ih ⟨s.openFrames + 1, 0, TreeMode.CHAOS⟩ rfl

/-- While FORMED is already the last committed mode, any run of CLOSED
frames emits no events. -/
lemma run_closed_formed (k : ℕ) : ∀ s : DebounceState, s.lastMode = TreeMode.FORMED →
    (debounceRun s (List.replicate k Classification.CLOSED)).2 = [] := by
  induction k with
  | zero => intro s _; rfl
  | succ n ih =>
    intro s h
    rw [List.replicate_succ]
    simp only [debounceRun, debounceStep_closed_formed s h]
    simpa using ih ⟨0, s.closedFrames + 1, TreeMode.FORMED⟩ rfl

/-- C1: from fresh counters with `lastCommittedMode ≠ CHAOS`, exactly
THRESHOLD = 5 consecutive OPEN frames emit no transition; THRESHOLD + 1
frames emit exactly one transition to CHAOS; and any number of further
consecutive OPEN frames emits no additional event. -/
theorem debouncer_threshold_single_transition (m : TreeMode) (h : m ≠ TreeMode.CHAOS) :
    (debounceRun ⟨0, 0, m⟩ (List.replicate 5 Classification.OPEN)).2 = [] ∧
    (debounceRun ⟨0, 0, m⟩ (List.replicate 6 Classification.OPEN)).2 = [TreeMode.CHAOS] ∧
    ∀ k : ℕ, (debounceRun ⟨0, 0, m⟩ (List.replicate (6 + k) Classification.OPEN)).2
      = [TreeMode.CHAOS] := by
  have hm : m = TreeMode.FORMED := by
    cases m
    · exact absurd rfl h
    · rfl
  subst hm
  refine ⟨by decide, by decide, ?_⟩
  intro k
  rw [List.replicate_add, debounceRun_append]
  have h1 : (debounceRun ⟨0, 0, TreeMode.FORMED⟩
      (List.replicate 6 Classification.OPEN)).1 = ⟨6, 0, TreeMode.CHAOS⟩ := by decide
  have h2 : (debounceRun ⟨0, 0, TreeMode.FORMED⟩
      (List.replicate 6 Classification.OPEN)).2 = [TreeMode.CHAOS] := by decide
  rw [h1, h2, run_open_chaos k ⟨6, 0, TreeMode.CHAOS⟩ rfl]
  rfl

/-- C1 witness: instantiated at `m = FORMED` and 100 extra OPEN frames. -/
theorem debouncer_threshold_single_transition_witness :
    TreeMode.FORMED ≠ TreeMode.CHAOS ∧
    (debounceRun ⟨0, 0, TreeMode.FORMED⟩
      (List.replicate (6 + 100) Classification.OPEN)).2 = [TreeMode.CHAOS] :=
  ⟨by decide, (debouncer_threshold_single_transition TreeMode.FORMED (by decide)).2.2 100⟩

/-- C6: a NONE frame decays both counters by one with a floor of zero
(rather than hard-resetting them), leaves the committed mode unchanged,
and emits no transition event. -/
theorem none_frame_decays_counters (s : DebounceState) :
    (debounceStep s Classification.NONE).1.openFrames = max 0 (s.openFrames - 1) ∧
    (debounceStep s Classification.NONE).1.closedFrames = max 0 (s.closedFrames - 1) ∧
    (debounceStep s Classification.NONE).1.lastMode = s.lastMode ∧
    (debounceStep s Classification.NONE).2 = none :=
  ⟨rfl, rfl, rfl, rfl⟩

/-- C7: an external mode override updates `lastCommittedMode` to the
externally set mode, and consequently a subsequent run of frames whose
gesture implies that same mode commits no transition at all. -/
theorem external_override_synchronizes_mode (s : DebounceState) (m : TreeMode) (k : ℕ) :
    (externalSetMode s m).lastMode = m ∧
    (debounceRun (externalSetMode s TreeMode.CHAOS)
      (List.replicate k Classification.OPEN)).2 = [] ∧
    (debounceRun (externalSetMode s TreeMode.FORMED)
      (List.replicate k Classification.CLOSED)).2 = [] :=
  ⟨rfl, run_open_chaos k _ rfl, run_closed_formed k _ rfl⟩

/-- The debouncer invariant of C10: counters are non-negative and at most
one of them is nonzero. -/
def debounceInv (s : DebounceState) : Prop :=
  0 ≤ s.openFrames ∧ 0 ≤ s.closedFrames ∧ (s.openFrames = 0 ∨ s.closedFrames = 0)

lemma debounceStep_inv (s : DebounceState) (c : Classification) (h : debounceInv s) :
    debounceInv (debounceStep s c).1 := by
  obtain ⟨h1, h2, h3⟩ := h
  cases c <;> simp only [debounceStep, debounceInv] <;> try split_ifs
  all_goals simp_all
  all_goals omega

lemma debounceRun_inv (cs : List Classification) : ∀ s : DebounceState,
    debounceInv s → debounceInv (debounceRun s cs).1 := by
  induction cs with
  | nil => intro s h; exact h
  | cons c cs ih =>
    intro s h
    exact ih _ (debounceStep_inv s c h)

/-- C10: in every state reachable from zeroed counters by any sequence of
per-frame classifications, both counters are non-negative and at most one
of `openFrames`, `closedFrames` is nonzero. -/
theorem debounce_counters_invariant (m : TreeMode) (cs : List Classification) :
    debounceInv (debounceRun ⟨0, 0, m⟩ cs).1 :=
  debounceRun_inv cs ⟨0, 0, m⟩ ⟨le_refl 0, le_refl 0, Or.inl rfl⟩

/-- The 32-bit mixing pipeline of `pseudoRandom` (GestureController.tsx
lines 347-352, identical copy in Polaroids.tsx lines 25-30), operating on
the unsigned 32-bit pattern `t0` of `seed + 0x6D2B79F5`.  Each JS bitwise
operation truncates to 32 bits, modelled by `% 4294967296`; `>>>` is the
logical shift on the 32-bit pattern, and `Math.imul` is multiplication
modulo 2^32. -/
def mulberry32 (t0 : ℕ) : ℕ :=
  let M : ℕ := 4294967296
  let t1 := ((t0 ^^^ (t0 >>> 15)) * (t0 ||| 1)) % M
  let t2 := (t1 ^^^ ((t1 + ((t1 ^^^ (t1 >>> 7)) * (t1 ||| 61)) % M) % M)) % M
  (t2 ^^^ (t2 >>> 14)) % M

/-- `pseudoRandom(seed)`: the deterministic generator.  The final
`>>> 0` of the source yields the unsigned 32-bit value, which is divided
by 4294967296. -/
noncomputable def pseudoRandom (seed : ℤ) : ℝ :=
  (mulberry32 (((seed + 0x6D2B79F5) % 4294967296).toNat) : ℝ) / 4294967296

lemma mulberry32_lt (t0 : ℕ) : mulberry32 t0 < 4294967296 :=
  Nat.mod_lt _ (by norm_num)

lemma pseudoRandom_nonneg (seed : ℤ) : 0 ≤ pseudoRandom seed := by
  unfold pseudoRandom
  positivity

lemma pseudoRandom_lt_one (seed : ℤ) : pseudoRandom seed < 1 := by
  unfold pseudoRandom
  rw [div_lt_one (by norm_num)]
  exact_mod_cast mulberry32_lt _

/-- C9: `pseudoRandom` is a pure function of its integer seed (the same
seed always yields the same value — there is no hidden state in the
embedding, which is itself a plain function of the seed), and its output
lies in the half-open interval [0, 1). -/
theorem pseudoRandom_pure_unit_interval (seed : ℤ) :
    pseudoRandom seed = pseudoRandom seed ∧
    0 ≤ pseudoRandom seed ∧ pseudoRandom seed < 1 :=
  ⟨rfl, pseudoRandom_nonneg seed, pseudoRandom_lt_one seed⟩

/-- The option record of `getUnleashSpreadPositions`, with one field per
optional entry of `opts`. -/
structure SpreadOpts where
  radiusBase : ℝ
  radiusMax : ℝ
  radialJitter : ℝ
  verticalJitter : ℝ
  easing : ℝ

/-- The defaults merged in by `getUnleashSpreadPositions` when `opts`
entries are absent: radiusBase 7, radiusMax 12, radialJitter 0.28,
verticalJitter 2.3, easing 1. -/
def defaultSpreadOpts : SpreadOpts := ⟨7, 12, 0.28, 2.3, 1⟩

/-- The raw pre-jitter base angle `theta = (i / count) * Math.PI * 2` of
entry `i` in `getUnleashSpreadPositions`. -/
noncomputable def baseAngle (count i : ℕ) : ℝ :=
  ((i : ℝ) / (count : ℝ)) * Real.pi * 2

/-- `getUnleashSpreadPositions(count, opts)` (GestureController.tsx lines
305-344): one (x, y, z) entry per index `i < count`. -/
noncomputable def getUnleashSpreadPositions (count : ℕ) (opts : SpreadOpts) :
    List (ℝ × ℝ × ℝ) :=
  (List.range count).map fun i =>
    let theta := baseAngle count i
    let thetaJitter := pseudoRandom ((i : ℤ) + 1) * opts.radialJitter - opts.radialJitter / 2
    let angle := theta + thetaJitter
    let radialRand := pseudoRandom ((i : ℤ) + 77) * (opts.radiusMax - opts.radiusBase)
    let radius := (opts.radiusBase + radialRand) * opts.easing
    let yOffset := (pseudoRandom ((i : ℤ) + 113) - 0.5) * 2 * opts.verticalJitter * opts.easing
    (Real.cos angle * radius, yOffset, Real.sin angle * radius)

/-- Radial distance from the origin in the XZ plane. -/
noncomputable def xzRadius (p : ℝ × ℝ × ℝ) : ℝ :=
  Real.sqrt (p.1 ^ 2 + p.2.2 ^ 2)

lemma xzRadius_cos_sin (a r y : ℝ) (hr : 0 ≤ r) :
    xzRadius (Real.cos a * r, y, Real.sin a * r) = r := by
  unfold xzRadius
  have hs : (Real.cos a * r) ^ 2 + (Real.sin a * r) ^ 2 = r ^ 2 := by
    have h := Real.sin_sq_add_cos_sq a
    nlinarith [h]
  rw [hs, Real.sqrt_sq hr]

lemma xzRadius_nonneg (p : ℝ × ℝ × ℝ) : 0 ≤ xzRadius p :=
  Real.sqrt_nonneg _

/-- C8 counterexample: the claim quantifies over *every* options record,
but for the record with radiusBase = -12, radiusMax = -10 and easing = 1
(and count = 1) the single entry's XZ radial distance is non-negative and
hence outside [radiusBase · easing, radiusMax · easing] = [-12, -10]. -/
theorem spread_radius_bound_fails_general_opts :
    ¬ (∀ p ∈ getUnleashSpreadPositions 1 ⟨-12, -10, 0.28, 2.3, 1⟩,
        xzRadius p ∈ Set.Icc ((-12 : ℝ) * 1) ((-10 : ℝ) * 1)) := by
  intro h
  have hmem : ∃ p ∈ getUnleashSpreadPositions 1 ⟨-12, -10, 0.28, 2.3, 1⟩, True := by
    simp [getUnleashSpreadPositions, List.range_succ]
  obtain ⟨p, hp, -⟩ := hmem
  have h2 := (h p hp).2
  have h3 := xzRadius_nonneg p
  norm_num at h2
  linarith

/-- C8 (amended): for every count ≥ 1 and every options record whose
radius bounds satisfy 0 ≤ radiusBase ≤ radiusMax with easing ≥ 0 (the
ranges documented for the options), the function returns exactly `count`
entries, every entry's XZ radial distance lies in
[radiusBase · easing, radiusMax · easing], and no two indices share the
same raw pre-jitter base angle. -/
theorem spread_count_radius_angle (count : ℕ) (opts : SpreadOpts) (hc : 1 ≤ count)
    (hb : 0 ≤ opts.radiusBase) (hbm : opts.radiusBase ≤ opts.radiusMax)
    (he : 0 ≤ opts.easing) :
    (getUnleashSpreadPositions count opts).length = count ∧
    (∀ p ∈ getUnleashSpreadPositions count opts,
      xzRadius p ∈ Set.Icc (opts.radiusBase * opts.easing) (opts.radiusMax * opts.easing)) ∧
    (∀ i j : ℕ, i < count → j < count → i ≠ j → baseAngle count i ≠ baseAngle count j) := by
  refine ⟨by simp [getUnleashSpreadPositions], ?_, ?_⟩
  · intro p hp
    simp only [getUnleashSpreadPositions, List.mem_map, List.mem_range] at hp
    obtain ⟨i, hi, rfl⟩ := hp
    have hr0 : 0 ≤ pseudoRandom ((i : ℤ) + 77) := pseudoRandom_nonneg _
    have hr1 : pseudoRandom ((i : ℤ) + 77) < 1 := pseudoRandom_lt_one _
    set radius := (opts.radiusBase +
      pseudoRandom ((i : ℤ) + 77) * (opts.radiusMax - opts.radiusBase)) * opts.easing with hrad
    have hradnn : 0 ≤ radius := by
      apply mul_nonneg _ he
      nlinarith
    rw [xzRadius_cos_sin _ _ _ hradnn]
    constructor
    · rw [hrad]
      apply mul_le_mul_of_nonneg_right _ he
      nlinarith
    · rw [hrad]
      apply mul_le_mul_of_nonneg_right _ he
      nlinarith
  · intro i j hi hj hij heq
    have hcr : (count : ℝ) ≠ 0 := by
      have : 0 < count := hc
      exact_mod_cast this.ne'
    unfold baseAngle at heq
    have hpi := Real.pi_ne_zero
    have hij2 : i = j := by
      field_simp at heq
      rcases heq with h | h
      · exact h
      · exact absurd h hpi
    exact hij hij2

/-- C8 witness for the amended theorem: count = 1 with the default
options record. -/
theorem spread_count_radius_angle_witness :
    ((1 : ℕ) ≤ 1 ∧ (0 : ℝ) ≤ defaultSpreadOpts.radiusBase ∧
      defaultSpreadOpts.radiusBase ≤ defaultSpreadOpts.radiusMax ∧
      (0 : ℝ) ≤ defaultSpreadOpts.easing) ∧
    (getUnleashSpreadPositions 1 defaultSpreadOpts).length = 1 :=
  ⟨⟨le_refl 1, by norm_num [defaultSpreadOpts], by norm_num [defaultSpreadOpts],
      by norm_num [defaultSpreadOpts]⟩,
   (spread_count_radius_angle 1 defaultSpreadOpts (le_refl 1)
      (by norm_num [defaultSpreadOpts]) (by norm_num [defaultSpreadOpts])
      (by norm_num [defaultSpreadOpts])).1⟩

/-- `THREE.MathUtils.lerp(x, y, t) = (1 - t) * x + t * y` — note: not
clamped. -/
noncomputable def lerp (x y t : ℝ) : ℝ := (1 - t) * x + t * y

/-- One `useFrame` update of the foliage progress uniform
(Foliage.tsx line 275): `lerp(progress, target, delta * 1.5)`. -/
noncomputable def foliageProgressStep (p target delta : ℝ) : ℝ :=
  lerp p target (delta * 1.5)

/-- The progress value after n frames of fixed frame delta, starting from
the initial `progressRef` value 0 (Foliage.tsx line 180). -/
noncomputable def foliageProgress (target delta : ℝ) : ℕ → ℝ
  | 0 => 0
  | n + 1 => foliageProgressStep (foliageProgress target delta n) target delta

/-- C2 counterexample: the claim asserts progress never exceeds 1 for
*every* non-negative deltaTime, but the lerp is unclamped: with
deltaTime = 1 (so rate · deltaTime = 1.5) a single frame starting from
progress 0 toward target 1 lands at 1.5 > 1. -/
theorem progress_overshoots_for_large_delta : 1 < foliageProgress 1 1 1 := by
  norm_num [foliageProgress, foliageProgressStep, lerp]

lemma foliageProgress_gap (delta : ℝ) : ∀ n : ℕ,
    1 - foliageProgress 1 delta n = (1 - delta * 1.5) ^ n := by
  intro n
  induction n with
  | zero => simp [foliageProgress]
  | succ k ih =>
    have hstep : 1 - foliageProgress 1 delta (k + 1)
        = (1 - delta * 1.5) * (1 - foliageProgress 1 delta k) := by
      simp only [foliageProgress, foliageProgressStep, lerp]
      ring
    rw [hstep, ih, pow_succ]
    ring

/-- C2 (amended): restricted to frame deltas with rate · deltaTime ≤ 1
(deltaTime ≤ 2/3), from progress 0: with target 1 the progress stays in
[0, 1] on every frame, increases monotonically toward the target, and
whenever deltaTime > 0 it comes within ε = 0.01 of 1 after sufficiently
many frames; with target 0 it stays exactly at 0. -/
theorem progress_bounded_monotone_convergent (delta : ℝ)
    (h0 : 0 ≤ delta) (h1 : delta * 1.5 ≤ 1) :
    (∀ n, 0 ≤ foliageProgress 1 delta n ∧ foliageProgress 1 delta n ≤ 1) ∧
    (∀ n, foliageProgress 1 delta n ≤ foliageProgress 1 delta (n + 1)) ∧
    (∀ n, foliageProgress 0 delta n = 0) ∧
    (0 < delta → ∃ N, ∀ n, N ≤ n → 1 - foliageProgress 1 delta n < 0.01) := by
  have ha0 : 0 ≤ 1 - delta * 1.5 := by linarith
  have ha1 : 1 - delta * 1.5 ≤ 1 := by nlinarith
  refine ⟨?_, ?_, ?_, ?_⟩
  · intro n
    have hg := foliageProgress_gap delta n
    have hp0 : 0 ≤ (1 - delta * 1.5) ^ n := pow_nonneg ha0 n
    have hp1 : (1 - delta * 1.5) ^ n ≤ 1 := pow_le_one₀ ha0 ha1
    constructor <;> linarith
  · intro n
    have hg := foliageProgress_gap delta n
    have hg1 := foliageProgress_gap delta (n + 1)
    have hp0 : 0 ≤ (1 - delta * 1.5) ^ n := pow_nonneg ha0 n
    have : (1 - delta * 1.5) ^ (n + 1) ≤ (1 - delta * 1.5) ^ n := by
      rw [pow_succ]
      exact mul_le_of_le_one_right hp0 ha1
    linarith
  · intro n
    induction n with
    | zero => rfl
    | succ k ih =>
      simp only [foliageProgress, foliageProgressStep, lerp, ih]
      ring
  · intro hd
    have hlt : 1 - delta * 1.5 < 1 := by nlinarith
    obtain ⟨N, hN⟩ := exists_pow_lt_of_lt_one (by norm_num : (0 : ℝ) < 0.01) hlt
    refine ⟨N, fun n hn => ?_⟩
    have hmono : (1 - delta * 1.5) ^ n ≤ (1 - delta * 1.5) ^ N :=
      pow_le_pow_of_le_one ha0 ha1 hn
    have hg := foliageProgress_gap delta n
    linarith

/-- C2 witness for the amended theorem: deltaTime = 1/2 per frame. -/
theorem progress_bounded_monotone_convergent_witness :
    ((0 : ℝ) ≤ 1 / 2 ∧ (1 / 2 : ℝ) * 1.5 ≤ 1) ∧
    (0 ≤ foliageProgress 1 (1 / 2) 3 ∧ foliageProgress 1 (1 / 2) 3 ≤ 1) :=
  ⟨⟨by norm_num, by norm_num⟩,
   (progress_bounded_monotone_convergent (1 / 2) (by norm_num) (by norm_num)).1 3⟩

/-- Chaos-layout position of particle `i` (Foliage.tsx lines 192-205).
`Math.random()` draws are read from the stream `rand` in source order:
the loop body of iteration `i` consumes draws 7i .. 7i+6 (r, theta, phi,
verticalBias, verticalVariation, jitter, rnd[i]). -/
noncomputable def foliageChaosPos (rand : ℕ → ℝ) (i : ℕ) : ℝ × ℝ × ℝ :=
  let r := 55 * rand (7 * i)
  let theta := rand (7 * i + 1) * 2 * Real.pi
  let phi := Real.arccos (2 * rand (7 * i + 2) - 1)
  let verticalBias := (rand (7 * i + 3) - 0.5) * 20
  (r * Real.sin phi * Real.cos theta * 1.8,
   r * Real.sin phi * Real.sin theta + 8 + verticalBias,
   r * Real.cos phi * 1.3)

/-- Target-layout (sakura canopy) position of particle `i` (Foliage.tsx
lines 211-246), with `height = 12`, `maxRadius = 5` and the golden-angle
increment.  Uses draws 7i+4 (verticalVariation) and 7i+5 (jitter) of the
random stream. -/
noncomputable def foliageTargetPos (count : ℕ) (rand : ℕ → ℝ) (i : ℕ) : ℝ × ℝ × ℝ :=
  let goldenRat := (1 + Real.sqrt 5) / 2
  let height : ℝ := 12
  let maxRadius : ℝ := 5
  let u := ((i : ℝ) + 0.5) / (count : ℝ)
  let r01 := u ^ (0.45 : ℝ)
  let diskR := maxRadius * 3 * r01
  let bulge := (1 - r01) * (1 - r01)
  let thetaG := 2 * Real.pi * goldenRat * (i : ℝ)
  let arms : ℝ := 3
  let twist := diskR * 0.45
  let thetaSpiral := thetaG + arms * twist
  let baseY := height * 0.95 + 1.0
  let thicknessCenter : ℝ := 2.0
  let thicknessEdge : ℝ := 0.4
  let edgeDrop := -0.35 * (r01 * r01)
  let localThickness := thicknessEdge + (thicknessCenter - thicknessEdge) * bulge
  let verticalVariation := (rand (7 * i + 4) - 0.5) * localThickness * 1.2
  let y := baseY + edgeDrop + verticalVariation
  let jitter := (rand (7 * i + 5) - 0.5) * 0.20
  let rr := diskR * (1 + jitter)
  (Real.cos thetaSpiral * rr, y, Real.sin thetaSpiral * rr)

/-- The dual-position generator of Foliage.tsx (the `useMemo` at lines
182-259): per-particle chaos positions, target positions, and random
factors `rnd[i] = Math.random()` (draw 7i+6). -/
noncomputable def foliageGen (count : ℕ) (rand : ℕ → ℝ) :
    List (ℝ × ℝ × ℝ) × List (ℝ × ℝ × ℝ) × List ℝ :=
  ((List.range count).map (foliageChaosPos rand),
   (List.range count).map (foliageTargetPos count rand),
   (List.range count).map (fun i => rand (7 * i + 6)))

/-- Flattening of a position list into the x, y, z float triples of the
source's `Float32Array(count * 3)`. -/
def flattenV3 : List (ℝ × ℝ × ℝ) → List ℝ
  | [] => []
  | p :: ps => p.1 :: p.2.1 :: p.2.2 :: flattenV3 ps

lemma flattenV3_length (l : List (ℝ × ℝ × ℝ)) : (flattenV3 l).length = 3 * l.length := by
  induction l with
  | nil => rfl
  | cons p ps ih => simp [flattenV3, ih]; ring

/-- C4: for every particle count N the generator returns exactly N
per-particle entries in each of the three arrays (3N floats in each
flattened position array), N = 0 yields empty arrays, and for N = 1 the
`count` denominator of the rank formula `u = (i + 0.5) / count` is
nonzero, so no density formula divides by zero. -/
theorem foliage_gen_lengths (count : ℕ) (rand : ℕ → ℝ) :
    (foliageGen count rand).1.length = count ∧
    (foliageGen count rand).2.1.length = count ∧
    (foliageGen count rand).2.2.length = count ∧
    (flattenV3 (foliageGen count rand).1).length = 3 * count ∧
    (flattenV3 (foliageGen count rand).2.1).length = 3 * count ∧
    (count = 0 → foliageGen count rand = ([], [], [])) ∧
    (count = 1 → (count : ℝ) ≠ 0) := by
  refine ⟨by simp [foliageGen], by simp [foliageGen], by simp [foliageGen],
    ?_, ?_, ?_, ?_⟩
  · rw [flattenV3_length]
    simp [foliageGen]
  · rw [flattenV3_length]
    simp [foliageGen]
  · intro h
    subst h
    rfl
  · intro h
    subst h
    norm_num

/-- C4 witness: N = 0 yields empty arrays; N = 2 yields arrays of
length 2. -/
theorem foliage_gen_lengths_witness :
    foliageGen 0 (fun _ => 0) = ([], [], []) ∧
    (foliageGen 2 (fun _ => 0)).1.length = 2 :=
  ⟨(foliage_gen_lengths 0 (fun _ => 0)).2.2.2.2.2.1 rfl,
   (foliage_gen_lengths 2 (fun _ => 0)).1⟩

/-- The XZ radial distance of a generated target-layout point equals the
jittered disk radius `rr = (maxRadius * 3) * u^0.45 * (1 + jitter)`,
whenever the jitter draw is non-negative (as `Math.random()` guarantees),
since then `rr ≥ 0`. -/
lemma foliageTargetPos_xzRadius (count : ℕ) (rand : ℕ → ℝ) (i : ℕ) (hc : 1 ≤ count)
    (h0 : 0 ≤ rand (7 * i + 5)) :
    xzRadius (foliageTargetPos count rand i) =
      5 * 3 * (((i : ℝ) + 0.5) / (count : ℝ)) ^ (0.45 : ℝ)
        * (1 + (rand (7 * i + 5) - 0.5) * 0.20) := by
  have hcpos : (0 : ℝ) < (count : ℝ) := by exact_mod_cast hc
  have hu : (0 : ℝ) ≤ ((i : ℝ) + 0.5) / (count : ℝ) := by positivity
  have hr01 : (0 : ℝ) ≤ (((i : ℝ) + 0.5) / (count : ℝ)) ^ (0.45 : ℝ) :=
    Real.rpow_nonneg hu _
  have hrr : (0 : ℝ) ≤ 5 * 3 * (((i : ℝ) + 0.5) / (count : ℝ)) ^ (0.45 : ℝ)
      * (1 + (rand (7 * i + 5) - 0.5) * 0.20) := by
    apply mul_nonneg (by positivity)
    linarith
  simp only [foliageTargetPos]
  rw [xzRadius_cos_sin _ _ _ hrr]

/-- The numeric core of the density bias: `3 ^ 0.45 > 11 / 9`, via
raising both sides to the 20th power (`3 ^ 9 = 19683 > (11 / 9) ^ 20`). -/
lemma three_rpow_gt : (11 / 9 : ℝ) < (3 : ℝ) ^ (0.45 : ℝ) := by
  have hb : (0 : ℝ) ≤ (3 : ℝ) ^ (0.45 : ℝ) := Real.rpow_nonneg (by norm_num) _
  refine lt_of_pow_lt_pow_left₀ 20 hb ?_
  have h20 : ((3 : ℝ) ^ (0.45 : ℝ)) ^ (20 : ℕ) = (3 : ℝ) ^ (9 : ℕ) := by
    rw [← Real.rpow_natCast ((3 : ℝ) ^ (0.45 : ℝ)) 20,
      ← Real.rpow_mul (by norm_num : (0 : ℝ) ≤ 3)]
    rw [show (0.45 : ℝ) * (20 : ℕ) = ((9 : ℕ) : ℝ) by norm_num, Real.rpow_natCast]
  rw [h20]
  norm_num

/-- C5 counterexample: the claim quantifies over every N ≥ 1, but at
N = 1 index 0 and index N - 1 coincide, so the radial distance cannot be
strictly less than itself. -/
theorem core_density_bias_fails_at_one :
    ¬ (xzRadius (foliageTargetPos 1 (fun _ => 0) 0) <
       xzRadius (foliageTargetPos 1 (fun _ => 0) (1 - 1))) := by
  simp

/-- C5 (amended): for every N ≥ 2 and random draws in [0, 1) (as
`Math.random()` guarantees), the target-layout XZ radial distance of
index 0 is strictly less than that of index N - 1: the density exponent
0.45 < 1 concentrates low ranks near the center, and the gap dominates
the ±10% radial jitter. -/
theorem core_density_bias (count : ℕ) (rand : ℕ → ℝ) (hc : 2 ≤ count)
    (hr : ∀ n, 0 ≤ rand n ∧ rand n < 1) :
    xzRadius (foliageTargetPos count rand 0) <
    xzRadius (foliageTargetPos count rand (count - 1)) := by
  have hc1 : 1 ≤ count := le_trans (by norm_num) hc
  obtain ⟨h50, h51⟩ := hr (7 * 0 + 5)
  obtain ⟨h60, h61⟩ := hr (7 * (count - 1) + 5)
  rw [foliageTargetPos_xzRadius count rand 0 hc1 h50,
    foliageTargetPos_xzRadius count rand (count - 1) hc1 h60]
  have hc2 : (2 : ℝ) ≤ (count : ℝ) := by exact_mod_cast hc
  have hcpos : (0 : ℝ) < (count : ℝ) := by linarith
  have hcast : ((count - 1 : ℕ) : ℝ) = (count : ℝ) - 1 := by
    rw [Nat.cast_sub hc1, Nat.cast_one]
  rw [hcast, Nat.cast_zero]
  set c := (count : ℝ) with hcdef
  set u0 := ((0 : ℝ) + 0.5) / c with hu0def
  have hu0pos : 0 < u0 := by
    rw [hu0def]
    positivity
  have hu1eq : (c - 1 + 0.5) / c = u0 * (2 * c - 1) := by
    rw [hu0def]
    field_simp
    ring
  rw [hu1eq, Real.mul_rpow (le_of_lt hu0pos) (by linarith : (0 : ℝ) ≤ 2 * c - 1)]
  set r0 := u0 ^ (0.45 : ℝ) with hr0def
  set k := (2 * c - 1) ^ (0.45 : ℝ) with hkdef
  have hr0pos : 0 < r0 := Real.rpow_pos_of_pos hu0pos _
  have hk3 : (3 : ℝ) ^ (0.45 : ℝ) ≤ k := by
    rw [hkdef]
    exact Real.rpow_le_rpow (by norm_num) (by linarith) (by norm_num)
  have hk : (11 / 9 : ℝ) < k := lt_of_lt_of_le three_rpow_gt hk3
  have hkpos : 0 < k := lt_trans (by norm_num) hk
  have hj0 : 1 + (rand (7 * 0 + 5) - 0.5) * 0.20 < 1.1 := by linarith
  have hj1 : (0.9 : ℝ) ≤ 1 + (rand (7 * (count - 1) + 5) - 0.5) * 0.20 := by linarith
  have step1 : 5 * 3 * r0 * (1 + (rand (7 * 0 + 5) - 0.5) * 0.20) < 5 * 3 * r0 * 1.1 := by
    have := mul_lt_mul_of_pos_left hj0 (by positivity : (0 : ℝ) < 5 * 3 * r0)
    linarith
  have step2 : (5 : ℝ) * 3 * r0 * 1.1 < 5 * 3 * (r0 * k) * 0.9 := by
    nlinarith
  have step3 : (5 : ℝ) * 3 * (r0 * k) * 0.9
      ≤ 5 * 3 * (r0 * k) * (1 + (rand (7 * (count - 1) + 5) - 0.5) * 0.20) := by
    have := mul_le_mul_of_nonneg_left hj1 (by positivity : (0 : ℝ) ≤ 5 * 3 * (r0 * k))
    linarith
  linarith

/-- C5 witness for the amended theorem: N = 2 with the zero random
stream. -/
theorem core_density_bias_witness :
    ((2 : ℕ) ≤ 2 ∧ ∀ n : ℕ, (0 : ℝ) ≤ (fun _ : ℕ => (0 : ℝ)) n ∧
      (fun _ : ℕ => (0 : ℝ)) n < 1) ∧
    xzRadius (foliageTargetPos 2 (fun _ => 0) 0) <
      xzRadius (foliageTargetPos 2 (fun _ => 0) (2 - 1)) :=
  ⟨⟨le_refl 2, fun n => ⟨le_refl 0, by norm_num⟩⟩,
   core_density_bias 2 (fun _ => 0) (le_refl 2) (fun n => ⟨le_refl 0, by norm_num⟩)⟩

/-- One MediaPipe hand landmark, with the normalized screen coordinates
used by `detectGesture` (only x and y enter the distance computations). -/
structure Landmark where
  x : ℝ
  y : ℝ

/-- `Math.hypot(a.x - b.x, a.y - b.y)`: planar distance between two
landmarks. -/
noncomputable def hypotDist (a b : Landmark) : ℝ :=
  Real.sqrt ((a.x - b.x) ^ 2 + (a.y - b.y) ^ 2)

/-- Indicator for one finger of the extended test in `detectGesture`:
1 when `distTip > distBase * factor`, else 0.  The wrist is landmark 0. -/
noncomputable def fingerExt (lm : Fin 21 → Landmark) (tip base : Fin 21) (factor : ℝ) : ℕ :=
  if hypotDist (lm tip) (lm 0) > hypotDist (lm base) (lm 0) * factor then 1 else 0

/-- The (tip, MCP base) landmark index pairs of the four non-thumb
fingers: index (8, 5), middle (12, 9), ring (16, 13), pinky (20, 17). -/
def fingerPairs : List (Fin 21 × Fin 21) := [(8, 5), (12, 9), (16, 13), (20, 17)]

/-- `extendedFingers` of `detectGesture` (GestureController.tsx lines
186-205): the four non-thumb fingers at threshold factor 1.5 plus the
thumb (tip 4, base 2) at factor 1.2. -/
noncomputable def extendedFingers (lm : Fin 21 → Landmark) : ℕ :=
  (fingerPairs.map (fun pr => fingerExt lm pr.1 pr.2 1.5)).sum + fingerExt lm 4 2 1.2

/-- The classification rule of `detectGesture` (lines 207-238):
`extendedFingers >= 4` is OPEN, `extendedFingers <= 1` is CLOSED,
anything else is AMBIGUOUS. -/
noncomputable def detectGesture (lm : Fin 21 → Landmark) : Classification :=
  if 4 ≤ extendedFingers lm then Classification.OPEN
  else if extendedFingers lm ≤ 1 then Classification.CLOSED
  else Classification.AMBIGUOUS

/-- C3: a non-thumb finger counts as extended exactly when
`dist(tip, wrist) > 1.5 · dist(base, wrist)`, the thumb exactly when
`dist(thumbTip, wrist) > 1.2 · dist(thumbBase, wrist)`, and the frame is
classified OPEN iff the extended count is ≥ 4, CLOSED iff it is ≤ 1, and
AMBIGUOUS otherwise. -/
theorem classifier_ratio_rule (lm : Fin 21 → Landmark) :
    (∀ pr ∈ fingerPairs, (fingerExt lm pr.1 pr.2 1.5 = 1 ↔
      hypotDist (lm pr.1) (lm 0) > hypotDist (lm pr.2) (lm 0) * 1.5)) ∧
    (fingerExt lm 4 2 1.2 = 1 ↔
      hypotDist (lm 4) (lm 0) > hypotDist (lm 2) (lm 0) * 1.2) ∧
    (detectGesture lm = Classification.OPEN ↔ 4 ≤ extendedFingers lm) ∧
    (detectGesture lm = Classification.CLOSED ↔ extendedFingers lm ≤ 1) ∧
    (detectGesture lm = Classification.AMBIGUOUS ↔
      (1 < extendedFingers lm ∧ extendedFingers lm < 4)) := by
  have hind : ∀ tip base : Fin 21, ∀ f : ℝ, (fingerExt lm tip base f = 1 ↔
      hypotDist (lm tip) (lm 0) > hypotDist (lm base) (lm 0) * f) := by
    intro tip base f
    unfold fingerExt
    split_ifs with h
    · simp [h]
    · simp [h]
  refine ⟨fun pr _ => hind pr.1 pr.2 1.5, hind 4 2 1.2, ?_, ?_, ?_⟩ <;>
    unfold detectGesture <;> split_ifs with h1 h2 <;> simp_all <;> omega

end CherryBlossom
